import Mathlib

/-
Verification of the NMEA decoder/aggregator (nmea_parser.py).

Shallow embedding conventions:
* Python strings are modelled as `List Char`; `strL` converts a Lean string
  literal to that representation.
* Python floats are modelled as rationals `ℚ`.  The decimal-literal parsing
  done by `float(...)` / `int(...)` on the field strings appearing in NMEA
  sentences is exact in ℚ; none of the verified claims depends on IEEE-754
  rounding of those literals.
* A Python expression that can raise an uncaught exception is modelled in the
  `Except Unit` monad; `Except.error ()` is an uncaught exception escaping
  `parse_sentence`.  In the source, every raising sub-expression of a handler
  is evaluated while the result dictionary is being built, before any field
  of the parser object is mutated, so an exception leaves the state unchanged;
  the model therefore returns no state on error.
-/

set_option allowUnsafeReducibility true

attribute [semireducible] Rat.add Rat.mul Rat.inv Rat.normalize Rat.sub Rat.neg Rat.blt Rat.div

namespace NMEA

/-- Convert a Lean string literal to the `List Char` representation used by
the model for Python strings. -/
def strL (s : String) : List Char := s.data

/-- Python `str.split(sep)` on a single-character separator (the model is
used with sep = ',' for fields and sep = newline for the UDP reassembler).
Mirrors Python semantics: splitting the empty string yields one empty
segment, and a trailing separator yields a trailing empty segment. -/
def splitOnChar (sep : Char) : List Char → List (List Char)
  | [] => [[]]
  | c :: rest =>
    match splitOnChar sep rest with
    | [] => [[]]
    | h :: t => if c = sep then [] :: h :: t else (c :: h) :: t

/-- Characters removed by Python `str.strip()` with no arguments. -/
def isPySpace (c : Char) : Bool :=
  c = ' ' || c = '\t' || c = '\n' || c = '\r' || c = '\x0b' || c = '\x0c'

/-- Python `str.strip()`: drop leading and trailing whitespace. -/
def pyStrip (l : List Char) : List Char :=
  ((l.dropWhile isPySpace).reverse.dropWhile isPySpace).reverse

/-- Numeric value of a list of decimal digit characters. -/
def digitsToNat (l : List Char) : Nat :=
  l.foldl (fun a c => a * 10 + (c.toNat - 48)) 0

/-- All characters are decimal digits. -/
def digitsOk (l : List Char) : Bool :=
  l.all (fun c => c.isDigit)

/-- Python `int(s)` on a field string: optional sign followed by decimal
digits; `none` models the `ValueError` raised on any other input. -/
def pyInt? (s : List Char) : Option Int :=
  match s with
  | '+' :: r => if r ≠ [] && digitsOk r then some ((digitsToNat r : Int)) else none
  | '-' :: r => if r ≠ [] && digitsOk r then some (-(digitsToNat r : Int)) else none
  | _ => if s ≠ [] && digitsOk s then some ((digitsToNat s : Int)) else none

/-- Unsigned part of Python `float(s)`: decimal digits with an optional
decimal point (`"12"`, `"12.5"`, `"12."`, `".5"`). -/
def pyFloatCore (s : List Char) : Option ℚ :=
  let ip := s.takeWhile (fun c => c ≠ '.')
  match s.dropWhile (fun c => c ≠ '.') with
  | [] => if s ≠ [] && digitsOk s then some ((digitsToNat s : ℚ)) else none
  | _ :: fp =>
    if fp.contains '.' then none
    else if ip = [] && fp = [] then none
    else if digitsOk ip && digitsOk fp then
      some ((digitsToNat ip : ℚ) + (digitsToNat fp : ℚ) / (10 : ℚ) ^ fp.length)
    else none

/-- Python `float(s)` on a field string; `none` models `ValueError`. -/
def pyFloat? (s : List Char) : Option ℚ :=
  match s with
  | '+' :: r => pyFloatCore r
  | '-' :: r => (pyFloatCore r).map (fun q => -q)
  | _ => pyFloatCore s

/-- The idiom `float(x) if x else None` appearing throughout the handlers:
an empty field is "not present"; a malformed non-empty field raises. -/
def floatField (s : List Char) : Except Unit (Option ℚ) :=
  if s = [] then .ok none
  else
    match pyFloat? s with
    | some q => .ok (some q)
    | none => .error ()

/-- The idiom `int(x) if x else 0` (GGA/GNS/GSV count fields). -/
def intFieldD (s : List Char) : Except Unit Int :=
  if s = [] then .ok 0
  else
    match pyInt? s with
    | some n => .ok n
    | none => .error ()

/-- Bare `int(s)` in a raising position (GSV PRN, GSA satellite list). -/
def intE (s : List Char) : Except Unit Int :=
  match pyInt? s with
  | some n => .ok n
  | none => .error ()

/-- Decimal rendering of an integer, as Python `repr`. -/
def intToDec (i : Int) : List Char :=
  if i < 0 then '-' :: Nat.toDigits 10 (-i).toNat else Nat.toDigits 10 i.toNat

/-- Left-pad with zeros to the given width. -/
def padZeros (w : Nat) (s : List Char) : List Char :=
  List.replicate (w - s.length) '0' ++ s

/-- Python format `{i:02d}`. -/
def fmt02d (i : Int) : List Char :=
  padZeros 2 (intToDec i)

/-- Python format `{q:06.3f}` on a rational.  Rounding of the third decimal
is modelled as round-half-up; none of the analyzed inputs sits on a tie. -/
def fmt063f (q : ℚ) : List Char :=
  if q < 0 then
    let ms := (Int.floor (-q * 1000 + 1 / 2)).toNat
    '-' :: (padZeros 1 (Nat.toDigits 10 (ms / 1000)) ++
      '.' :: padZeros 3 (Nat.toDigits 10 (ms % 1000)))
  else
    let ms := (Int.floor (q * 1000 + 1 / 2)).toNat
    padZeros 2 (Nat.toDigits 10 (ms / 1000)) ++
      '.' :: padZeros 3 (Nat.toDigits 10 (ms % 1000))

/-- parse_time: "HHMMSS.ss" to "HH:MM:SS.sss"; any conversion error is
caught inside the function and yields "not present". -/
def parse_time (s : List Char) : Option (List Char) :=
  if s.length < 6 then none
  else
    match pyInt? (s.take 2), pyInt? ((s.drop 2).take 2), pyFloat? (s.drop 4) with
    | some h, some m, some sec =>
      some (fmt02d h ++ ':' :: fmt02d m ++ ':' :: fmt063f sec)
    | _, _, _ => none

/-- parse_date: "DDMMYY" to "YYYY-MM-DD" (assuming 20xx); conversion errors
are caught and yield "not present". -/
def parse_date (s : List Char) : Option (List Char) :=
  if s.length ≠ 6 then none
  else
    match pyInt? (s.take 2), pyInt? ((s.drop 2).take 2), pyInt? (s.drop 4) with
    | some d, some m, some y =>
      some (intToDec (2000 + y) ++ '-' :: fmt02d m ++ '-' :: fmt02d d)
    | _, _, _ => none

/-- parse_coordinate: DDMM.MMMM plus hemisphere letter to decimal degrees;
requires a decimal point at position at least 3; conversion errors are
caught and yield "not present". -/
def parse_coordinate (cs dir : List Char) : Option ℚ :=
  if cs = [] || dir = [] then none
  else if !cs.contains '.' then none
  else
    let decimalPos := (cs.takeWhile (fun c => c ≠ '.')).length
    if decimalPos < 3 then none
    else
      match pyInt? (cs.take (decimalPos - 2)), pyFloat? (cs.drop (decimalPos - 2)) with
      | some degrees, some minutes =>
        let dd := (degrees : ℚ) + minutes / 60
        some (if dir = ['S'] || dir = ['W'] then -dd else dd)
      | _, _ => none

/-- get_fix_quality lookup table. -/
def get_fix_quality (q : List Char) : List Char :=
  if q = strL "0" then strL "Invalid"
  else if q = strL "1" then strL "GPS fix (SPS)"
  else if q = strL "2" then strL "DGPS fix"
  else if q = strL "3" then strL "PPS fix"
  else if q = strL "4" then strL "Real Time Kinematic"
  else if q = strL "5" then strL "Float RTK"
  else if q = strL "6" then strL "Estimated (dead reckoning)"
  else if q = strL "7" then strL "Manual input mode"
  else if q = strL "8" then strL "Simulation mode"
  else strL "Unknown (" ++ q ++ strL ")"

/-- get_fix_type lookup table. -/
def get_fix_type (f : List Char) : List Char :=
  if f = strL "1" then strL "No fix"
  else if f = strL "2" then strL "2D fix"
  else if f = strL "3" then strL "3D fix"
  else strL "Unknown (" ++ f ++ strL ")"

/-- get_constellation: talker-prefix to constellation name, checked in the
order of the source. -/
def get_constellation (t : List Char) : List Char :=
  match t with
  | 'G' :: 'P' :: _ => strL "GPS"
  | 'G' :: 'L' :: _ => strL "GLONASS"
  | 'G' :: 'A' :: _ => strL "Galileo"
  | 'G' :: 'B' :: _ => strL "BeiDou"
  | 'G' :: 'N' :: _ => strL "GNSS (Multi-constellation)"
  | _ => strL "Unknown"

/-! Records returned by the per-sentence handlers.  Each field mirrors one
key of the corresponding Python result dictionary; `Option` is "not
present" (Python `None`). -/

/-- GGA result record. -/
structure GGARec where
  time : Option (List Char)
  latitude : Option ℚ
  longitude : Option ℚ
  fix_quality : Option (List Char)
  num_satellites : Int
  hdop : Option ℚ
  altitude : Option ℚ
  altitude_units : Option (List Char)
  geoid_height : Option ℚ
  geoid_units : Option (List Char)
deriving DecidableEq

/-- RMC result record. -/
structure RMCRec where
  time : Option (List Char)
  status : List Char
  latitude : Option ℚ
  longitude : Option ℚ
  speed_knots : Option ℚ
  course : Option ℚ
  date : Option (List Char)
  magnetic_variation : Option ℚ
  mag_var_direction : Option (List Char)
deriving DecidableEq

/-- GSA result record. -/
structure GSARec where
  mode : List Char
  fix_type : Option (List Char)
  satellites_used : List Int
  pdop : Option ℚ
  hdop : Option ℚ
  vdop : Option ℚ
deriving DecidableEq

/-- One satellite of a GSV sentence (or of the stored satellite table). -/
structure Sat where
  prn : Int
  elevation : Option ℚ
  azimuth : Option ℚ
  snr : Option ℚ
deriving DecidableEq

/-- GSV result record. -/
structure GSVRec where
  total_messages : Int
  message_num : Int
  total_satellites : Int
  satellites : List Sat
deriving DecidableEq

/-- VTG result record. -/
structure VTGRec where
  course_true : Option ℚ
  course_magnetic : Option ℚ
  speed_knots : Option ℚ
  speed_kmh : Option ℚ
deriving DecidableEq

/-- GNS result record. -/
structure GNSRec where
  time : Option (List Char)
  latitude : Option ℚ
  longitude : Option ℚ
  mode_indicator : List Char
  num_satellites : Int
  hdop : Option ℚ
  altitude : Option ℚ
  geoid_height : Option ℚ
deriving DecidableEq

/-- PQXFI result record. -/
structure PQXFIRec where
  time : Option (List Char)
  latitude : Option ℚ
  longitude : Option ℚ
  altitude : Option ℚ
  value1 : Option ℚ
  value2 : Option ℚ
  value3 : Option ℚ
deriving DecidableEq

/-- The dictionary returned by parse_sentence: one variant per handler,
an Unknown variant for unregistered sentence types, and the empty
dictionary returned for non-sentences and too-short sentences. -/
inductive Record where
  | gga (r : GGARec)
  | rmc (r : RMCRec)
  | gsa (r : GSARec)
  | gsv (r : GSVRec)
  | vtg (r : VTGRec)
  | gns (r : GNSRec)
  | pqxfi (r : PQXFIRec)
  | unknown (type raw : List Char)
  | empty
deriving DecidableEq

/-- Contents of self.fix_info. -/
structure FixInfo where
  satellites : Int
  quality : Option (List Char)
  hdop : Option ℚ
deriving DecidableEq

/-- Contents of self.velocity. -/
structure Velocity where
  speed_knots : ℚ
  speed_kmh : ℚ
  course : Option ℚ
deriving DecidableEq

/-- The position_info dictionary built by _process_new_position.  The
movement entry added by _calculate_movement involves IEEE floating point
trigonometry and wall-clock timestamps; no claim constrains its value, so
it is abstracted to an arbitrary type μ and the function computing it is a
parameter of the model (quantified in every theorem). -/
structure PosInfo (μ : Type) where
  timestamp : List Char
  latitude : Option ℚ
  longitude : Option ℚ
  altitude : Option ℚ
  time : Option (List Char)
  fix_quality : Option (List Char)
  num_satellites : Option Int
  hdop : Option ℚ
  source : List Char
  movement : Option μ
deriving DecidableEq

/-- The mutable navigational state of the NMEAParser object. -/
structure NavState (μ : Type) where
  position : Option (ℚ × ℚ × Option ℚ)
  time_info : Option (List Char)
  satellites : List (List Char × List Sat)
  fix_info : Option FixInfo
  velocity : Option Velocity
  last_position : Option (PosInfo μ)
  position_history : List (PosInfo μ)
deriving DecidableEq

/-- Fresh parser state (the NMEAParser constructor). -/
def initState {μ : Type} : NavState μ :=
  ⟨none, none, [], none, none, none, []⟩

/-- Python truthiness of an optional number (None and 0.0 are falsy). -/
def truthyQ (o : Option ℚ) : Bool :=
  match o with
  | none => false
  | some q => q != 0

/-- Python truthiness of an optional string (None and "" are falsy). -/
def truthyS (o : Option (List Char)) : Bool :=
  match o with
  | none => false
  | some s => s != []

/-- Python `a or b` on an optional number versus a fallback (used for the
speed_kmh fallback in parse_vtg). -/
def orQ (a : Option ℚ) (b : ℚ) : ℚ :=
  match a with
  | none => b
  | some q => if q != 0 then q else b

/-- Lookup in an insertion-ordered association list (Python dict access). -/
def assocGet {V : Type} : List (List Char × V) → List Char → Option V
  | [], _ => none
  | (k, v) :: rest, key => if k = key then some v else assocGet rest key

/-- Update or append in an insertion-ordered association list (Python dict
assignment preserving insertion order). -/
def assocSet {V : Type} : List (List Char × V) → List Char → V → List (List Char × V)
  | [], key, v => [(key, v)]
  | (k, w) :: rest, key, v =>
    if k = key then (k, v) :: rest else (k, w) :: assocSet rest key v

variable {μ : Type}

/-- Type of the abstracted _calculate_movement: previous position_info and
new position_info to the optional movement entry (the empty dictionary
returned when a coordinate is missing corresponds to `none`). -/
abbrev CalcMove (μ : Type) := PosInfo μ → PosInfo μ → Option μ

/-- The position_info value _process_new_position hands to history and
callbacks: the incoming dictionary, updated with movement data when a
previous position exists. -/
def mkPosInfo (cm : CalcMove μ) (st : NavState μ) (pi : PosInfo μ) : PosInfo μ :=
  match st.last_position with
  | some lp => { pi with movement := cm lp pi }
  | none => pi

/-- State effect of _process_new_position: append to the bounded history
(pop the oldest element when the length exceeds 100) and replace
last_position.  The callback loop that follows touches no parser field;
it is modelled separately by `callbackLoop`. -/
def processNewPosition (cm : CalcMove μ) (st : NavState μ) (pi : PosInfo μ) : NavState μ :=
  let pi' := mkPosInfo cm st pi
  let hist := st.position_history ++ [pi']
  let hist := if hist.length > 100 then hist.tail else hist
  { st with position_history := hist, last_position := some pi' }

/-- position_info built from a GGA result dictionary (the .get calls of
_process_new_position). -/
def posInfoGGA (now : List Char) (r : GGARec) : PosInfo μ :=
  ⟨now, r.latitude, r.longitude, r.altitude, r.time, r.fix_quality,
    some r.num_satellites, r.hdop, strL "GGA", none⟩

/-- position_info built from an RMC result dictionary; RMC dictionaries
carry no altitude, fix_quality, num_satellites or hdop keys. -/
def posInfoRMC (now : List Char) (r : RMCRec) : PosInfo μ :=
  ⟨now, r.latitude, r.longitude, none, r.time, none, none, none, strL "RMC", none⟩

/-- State updates of parse_gga after the result dictionary is built:
position replacement gated on coordinate truthiness, then time, then
fix_info gated on a nonzero satellite count. -/
def ggaUpdate (cm : CalcMove μ) (now : List Char) (st : NavState μ) (r : GGARec) :
    NavState μ :=
  let st1 :=
    if truthyQ r.latitude && truthyQ r.longitude then
      processNewPosition cm
        { st with position := some (r.latitude.getD 0, r.longitude.getD 0, r.altitude) }
        (posInfoGGA now r)
    else st
  let st2 := if truthyS r.time then { st1 with time_info := r.time } else st1
  if r.num_satellites ≠ 0 then
    { st2 with fix_info := some ⟨r.num_satellites, r.fix_quality, r.hdop⟩ }
  else st2

/-- State updates of parse_rmc: position replacement (with altitude set to
"not present"), then time, then velocity whenever speed is not None. -/
def rmcUpdate (cm : CalcMove μ) (now : List Char) (st : NavState μ) (r : RMCRec) :
    NavState μ :=
  let st1 :=
    if truthyQ r.latitude && truthyQ r.longitude then
      processNewPosition cm
        { st with position := some (r.latitude.getD 0, r.longitude.getD 0, none) }
        (posInfoRMC now r)
    else st
  let st2 := if truthyS r.time then { st1 with time_info := r.time } else st1
  if r.speed_knots.isSome then
    let v : Velocity := ⟨r.speed_knots.getD 0, r.speed_knots.getD 0 * (1852 / 1000), r.course⟩
    { st2 with velocity := some v }
  else st2

/-- State update of parse_vtg: velocity whenever speed is not None, with
the km/h value falling back to knots * 1.852 when the km/h field is falsy. -/
def vtgUpdate (st : NavState μ) (r : VTGRec) : NavState μ :=
  if r.speed_knots.isSome then
    let v : Velocity :=
      ⟨r.speed_knots.getD 0, orQ r.speed_kmh (r.speed_knots.getD 0 * (1852 / 1000)),
        r.course_true⟩
    { st with velocity := some v }
  else st

/-- Merge one decoded satellite into a constellation bucket: the first
entry with the same PRN is replaced wholesale (dict.update with all four
keys), otherwise the satellite is appended. -/
def upsertSat : List Sat → Sat → List Sat
  | [], s => [s]
  | x :: xs, s => if x.prn = s.prn then s :: xs else x :: upsertSat xs s

/-- State update of parse_gsv: ensure the constellation bucket exists, then
merge each decoded satellite in order. -/
def gsvUpdate (st : NavState μ) (constellation : List Char) (sats : List Sat) :
    NavState μ :=
  let bucket :=
    match assocGet st.satellites constellation with
    | some b => b
    | none => []
  { st with satellites := assocSet st.satellites constellation (sats.foldl upsertSat bucket) }

/-- Field access `parts[i]`; all source accesses are guarded by a length
check, under which the default is never used. -/
def fld (parts : List (List Char)) (i : Nat) : List Char :=
  parts.getD i []

/-- parse_gga.  The satellite-count, HDOP, altitude and geoid-height fields
use bare int()/float() conversions that raise on malformed non-empty
input; the raise happens while the dictionary is being built, before any
state update. -/
def parse_gga (cm : CalcMove μ) (now : List Char) (st : NavState μ)
    (parts : List (List Char)) : Except Unit (NavState μ × Record) :=
  if parts.length < 15 then .ok (st, .empty)
  else
    match intFieldD (fld parts 7), floatField (fld parts 8), floatField (fld parts 9),
        floatField (fld parts 11) with
    | .ok ns, .ok hd, .ok alt, .ok gh =>
      let r : GGARec :=
        ⟨(if fld parts 1 ≠ [] then parse_time (fld parts 1) else none),
         (if fld parts 2 ≠ [] ∧ fld parts 3 ≠ [] then
            parse_coordinate (fld parts 2) (fld parts 3) else none),
         (if fld parts 4 ≠ [] ∧ fld parts 5 ≠ [] then
            parse_coordinate (fld parts 4) (fld parts 5) else none),
         (if fld parts 6 ≠ [] then some (get_fix_quality (fld parts 6)) else none),
         ns, hd, alt,
         (if fld parts 10 ≠ [] then some (fld parts 10) else none),
         gh,
         (if fld parts 12 ≠ [] then some (fld parts 12) else none)⟩
      .ok (ggaUpdate cm now st r, .gga r)
    | _, _, _, _ => .error ()

/-- parse_rmc.  Speed, course and magnetic-variation fields use bare
float() conversions that raise on malformed non-empty input. -/
def parse_rmc (cm : CalcMove μ) (now : List Char) (st : NavState μ)
    (parts : List (List Char)) : Except Unit (NavState μ × Record) :=
  if parts.length < 13 then .ok (st, .empty)
  else
    match floatField (fld parts 7), floatField (fld parts 8), floatField (fld parts 10) with
    | .ok sk, .ok crs, .ok mv =>
      let r : RMCRec :=
        ⟨(if fld parts 1 ≠ [] then parse_time (fld parts 1) else none),
         (if fld parts 2 = ['A'] then strL "Active" else strL "Void"),
         (if fld parts 3 ≠ [] ∧ fld parts 4 ≠ [] then
            parse_coordinate (fld parts 3) (fld parts 4) else none),
         (if fld parts 5 ≠ [] ∧ fld parts 6 ≠ [] then
            parse_coordinate (fld parts 5) (fld parts 6) else none),
         sk, crs,
         (if fld parts 9 ≠ [] then parse_date (fld parts 9) else none),
         mv,
         (if fld parts 11 ≠ [] then some (fld parts 11) else none)⟩
      .ok (rmcUpdate cm now st r, .rmc r)
    | _, _, _ => .error ()

/-- The list comprehension [int(s) for s in parts[3:15] if s]; a malformed
non-empty entry raises. -/
def intList : List (List Char) → Except Unit (List Int)
  | [] => .ok []
  | x :: xs =>
    match pyInt? x, intList xs with
    | some n, .ok l => .ok (n :: l)
    | _, _ => .error ()

/-- parse_gsa; builds the record only, no state update in the source. -/
def parse_gsa (st : NavState μ) (parts : List (List Char)) :
    Except Unit (NavState μ × Record) :=
  if parts.length < 18 then .ok (st, .empty)
  else
    match intList (((parts.drop 3).take 12).filter (fun s => s ≠ [])),
        floatField (fld parts 15), floatField (fld parts 16), floatField (fld parts 17) with
    | .ok used, .ok pd, .ok hd, .ok vd =>
      let r : GSARec :=
        ⟨fld parts 1,
         (if fld parts 2 ≠ [] then some (get_fix_type (fld parts 2)) else none),
         used, pd, hd, vd⟩
      .ok (st, .gsa r)
    | _, _, _, _ => .error ()

/-- Groups of four consecutive fields; a trailing partial group is skipped
(the i + 3 < len(parts) guard of the GSV loop). -/
def chunks4 {α : Type} : List α → List (List α)
  | a :: b :: c :: d :: rest => [a, b, c, d] :: chunks4 rest
  | _ => []

/-- Decode one PRN/elevation/azimuth/SNR group; an empty PRN skips the
group, a malformed PRN raises. -/
def satOfChunk : List (List Char) → Except Unit (Option Sat)
  | [a, b, c, d] =>
    if a = [] then .ok none
    else
      match pyInt? a, floatField b, floatField c, floatField d with
      | some prn, .ok el, .ok az, .ok sn => .ok (some ⟨prn, el, az, sn⟩)
      | _, _, _, _ => .error ()
  | _ => .ok none

/-- Decode all GSV satellite groups in order. -/
def gsvSats : List (List (List Char)) → Except Unit (List Sat)
  | [] => .ok []
  | chunk :: rest =>
    match satOfChunk chunk, gsvSats rest with
    | .ok none, .ok l => .ok l
    | .ok (some s), .ok l => .ok (s :: l)
    | _, _ => .error ()

/-- parse_gsv; merges the decoded satellites into the constellation bucket
derived from the talker prefix of parts[0]. -/
def parse_gsv (st : NavState μ) (parts : List (List Char)) :
    Except Unit (NavState μ × Record) :=
  if parts.length < 8 then .ok (st, .empty)
  else
    match intFieldD (fld parts 1), intFieldD (fld parts 2), intFieldD (fld parts 3),
        gsvSats (chunks4 (parts.drop 4)) with
    | .ok tm, .ok mn, .ok ts, .ok sats =>
      let r : GSVRec := ⟨tm, mn, ts, sats⟩
      .ok (gsvUpdate st (get_constellation (fld parts 0)) sats, .gsv r)
    | _, _, _, _ => .error ()

/-- parse_vtg. -/
def parse_vtg (st : NavState μ) (parts : List (List Char)) :
    Except Unit (NavState μ × Record) :=
  if parts.length < 10 then .ok (st, .empty)
  else
    match floatField (fld parts 1), floatField (fld parts 3), floatField (fld parts 5),
        floatField (fld parts 7) with
    | .ok ct, .ok cmg, .ok sk, .ok skm =>
      let r : VTGRec := ⟨ct, cmg, sk, skm⟩
      .ok (vtgUpdate st r, .vtg r)
    | _, _, _, _ => .error ()

/-- parse_gns; builds the record only — the source performs no state
update for GNS sentences. -/
def parse_gns (st : NavState μ) (parts : List (List Char)) :
    Except Unit (NavState μ × Record) :=
  if parts.length < 13 then .ok (st, .empty)
  else
    match intFieldD (fld parts 7), floatField (fld parts 8), floatField (fld parts 9),
        floatField (fld parts 10) with
    | .ok ns, .ok hd, .ok alt, .ok gh =>
      let r : GNSRec :=
        ⟨(if fld parts 1 ≠ [] then parse_time (fld parts 1) else none),
         (if fld parts 2 ≠ [] ∧ fld parts 3 ≠ [] then
            parse_coordinate (fld parts 2) (fld parts 3) else none),
         (if fld parts 4 ≠ [] ∧ fld parts 5 ≠ [] then
            parse_coordinate (fld parts 4) (fld parts 5) else none),
         fld parts 6, ns, hd, alt, gh⟩
      .ok (st, .gns r)
    | _, _, _, _ => .error ()

/-- parse_pqxfi; builds the record only — the source performs no state
update for PQXFI sentences.  For value3, the len(parts) > 9 guard plus
the empty default of fld make `floatField (fld parts 9)` exact. -/
def parse_pqxfi (st : NavState μ) (parts : List (List Char)) :
    Except Unit (NavState μ × Record) :=
  if parts.length < 9 then .ok (st, .empty)
  else
    match floatField (fld parts 6), floatField (fld parts 7), floatField (fld parts 8),
        floatField (fld parts 9) with
    | .ok alt, .ok v1, .ok v2, .ok v3 =>
      let r : PQXFIRec :=
        ⟨(if fld parts 1 ≠ [] then parse_time (fld parts 1) else none),
         (if fld parts 2 ≠ [] ∧ fld parts 3 ≠ [] then
            parse_coordinate (fld parts 2) (fld parts 3) else none),
         (if fld parts 4 ≠ [] ∧ fld parts 5 ≠ [] then
            parse_coordinate (fld parts 4) (fld parts 5) else none),
         alt, v1, v2, v3⟩
      .ok (st, .pqxfi r)
    | _, _, _, _ => .error ()

/-- Strip the checksum segment from the last field (split on the star and
keep the first segment; a no-op when the last field has no star). -/
def stripChecksumLast : List (List Char) → List (List Char)
  | [] => []
  | [x] => [x.takeWhile (fun c => c ≠ '*')]
  | x :: xs => x :: stripChecksumLast xs

/-- parse_sentence: reject lines not starting with the sentence-start
marker, split the rest on commas, strip the checksum from the last field,
and dispatch on the sentence-type token (taken before the checksum strip,
exactly as the source binds it). -/
def parse_sentence (cm : CalcMove μ) (now : List Char) (st : NavState μ)
    (line : List Char) : Except Unit (NavState μ × Record) :=
  match line with
  | c :: rest =>
    if c ≠ '$' then .ok (st, .empty)
    else
    let parts0 := splitOnChar ',' rest
    let stype := parts0.headD []
    let parts := stripChecksumLast parts0
    if stype = strL "GPGGA" ∨ stype = strL "GNGGA" then parse_gga cm now st parts
    else if stype = strL "GPRMC" ∨ stype = strL "GNRMC" then parse_rmc cm now st parts
    else if stype = strL "GPGSA" ∨ stype = strL "GNGSA" then parse_gsa st parts
    else if stype = strL "GPGSV" ∨ stype = strL "GLGSV" ∨ stype = strL "GAGSV" ∨
        stype = strL "GBGSV" then parse_gsv st parts
    else if stype = strL "GPVTG" ∨ stype = strL "GNVTG" then parse_vtg st parts
    else if stype = strL "GNGNS" then parse_gns st parts
    else if stype = strL "PQXFI" then parse_pqxfi st parts
    else .ok (st, .unknown stype line)
  | [] => .ok (st, .empty)

/-- Candidate-line filter of UDPReceiver._process_data: each complete line
is stripped and forwarded when non-empty and starting with the
sentence-start marker. -/
def forwardLines (lines : List (List Char)) : List (List Char) :=
  lines.filterMap (fun l =>
    match pyStrip l with
    | [] => none
    | c :: cs => if c = '$' then some (c :: cs) else none)

/-- UDPReceiver._process_data: append the chunk to the carry-over buffer,
split on the line break, forward the complete segments through the filter
and retain the final segment as the new buffer.  Returns (forwarded
sentences, new buffer). -/
def processData (buf data : List Char) : List (List Char) × List Char :=
  let lines := splitOnChar '\n' (buf ++ data)
  (forwardLines lines.dropLast, lines.getLastD [])

/-- A position-update observer: receives the position_info dictionary and
either returns or raises (the error value models the exception message).
Observers are modelled as pure functions; the source catches any exception
and the dispatch loop writes no parser field. -/
abbrev Observer (μ : Type) := PosInfo μ → Except (List Char) Unit

/-- add_position_callback appends to the registration list. -/
def addPositionCallback (cbs : List (Observer μ)) (cb : Observer μ) :
    List (Observer μ) :=
  cbs ++ [cb]

/-- The callback dispatch loop of _process_new_position: every callback is
invoked in list order; a raising callback has its exception caught
(the result is recorded and the loop continues). -/
def callbackLoop (pi : PosInfo μ) : List (Observer μ) → List (Except (List Char) Unit)
  | [] => []
  | cb :: rest => cb pi :: callbackLoop pi rest

/-- _process_new_position including observer dispatch: the state effect,
paired with the outcome of every observer invocation. -/
def processNewPositionFull (cm : CalcMove μ) (cbs : List (Observer μ))
    (st : NavState μ) (pi : PosInfo μ) :
    NavState μ × List (Except (List Char) Unit) :=
  (processNewPosition cm st pi, callbackLoop (mkPosInfo cm st pi) cbs)

/-- First stored satellite with the given PRN (the next(...) lookup of
parse_gsv). -/
def findPrn : List Sat → Int → Option Sat
  | [], _ => none
  | s :: rest, p => if s.prn = p then some s else findPrn rest p

/-- A constellation bucket has at most one entry per PRN. -/
def prnUnique (l : List Sat) : Prop :=
  l.Pairwise (fun a b => a.prn ≠ b.prn)

instance (l : List Sat) : Decidable (prnUnique l) := by
  unfold prnUnique
  infer_instance

/-- Minimum field count demanded by the handler registered for a sentence
type token, mirroring the length guard at the top of each handler; `none`
for tokens with no registered handler.  The condition structure follows
the dispatch of parse_sentence. -/
def minFieldsOf (stype : List Char) : Option Nat :=
  if stype = strL "GPGGA" ∨ stype = strL "GNGGA" then some 15
  else if stype = strL "GPRMC" ∨ stype = strL "GNRMC" then some 13
  else if stype = strL "GPGSA" ∨ stype = strL "GNGSA" then some 18
  else if stype = strL "GPGSV" ∨ stype = strL "GLGSV" ∨ stype = strL "GAGSV" ∨
      stype = strL "GBGSV" then some 8
  else if stype = strL "GPVTG" ∨ stype = strL "GNVTG" then some 10
  else if stype = strL "GNGNS" then some 13
  else if stype = strL "PQXFI" then some 9
  else none

/-! Split lemmas used by the reassembler and field-layout proofs. -/

theorem splitOnChar_ne_nil (sep : Char) : ∀ l : List Char, splitOnChar sep l ≠ []
  | [] => by simp [splitOnChar]
  | c :: rest => by
    have h := splitOnChar_ne_nil sep rest
    simp only [splitOnChar]
    rcases hr : splitOnChar sep rest with _ | ⟨a, t⟩
    · exact absurd hr h
    · split
      · simp
      · split <;> simp

/-- One unfolding step of splitOnChar under a known tail split. -/
theorem splitOnChar_cons_eq (sep c : Char) {rest h : List Char}
    {t : List (List Char)} (hr : splitOnChar sep rest = h :: t) :
    splitOnChar sep (c :: rest) =
      if c = sep then [] :: h :: t else (c :: h) :: t := by
  simp only [splitOnChar, hr]

/-- Splitting a concatenation: the complete segments of the left part stay,
and the incomplete last segment of the left part fuses with the right
part. -/
theorem splitOnChar_append (sep : Char) (x y : List Char) :
    splitOnChar sep (x ++ y) =
      (splitOnChar sep x).dropLast ++
        splitOnChar sep ((splitOnChar sep x).getLastD [] ++ y) := by
  induction x with
  | nil => simp [splitOnChar]
  | cons c rest ih =>
    rcases hr : splitOnChar sep rest with _ | ⟨h1, t1⟩
    · exact absurd hr (splitOnChar_ne_nil sep rest)
    · rcases hry : splitOnChar sep (rest ++ y) with _ | ⟨a, b⟩
      · exact absurd hry (splitOnChar_ne_nil sep (rest ++ y))
      · have ih' := ih
        rw [hr, hry] at ih'
        rw [List.cons_append, splitOnChar_cons_eq sep c hry,
          splitOnChar_cons_eq sep c hr]
        by_cases hc : c = sep
        · rw [if_pos hc, if_pos hc]
          simp only [List.dropLast_cons₂, List.getLastD_cons, List.cons_append] at ih' ⊢
          rw [ih']
        · rw [if_neg hc, if_neg hc]
          rcases t1 with _ | ⟨u, v⟩
          · simp only [List.dropLast_single, List.nil_append, List.getLastD_cons,
              List.getLastD_nil] at ih' ⊢
            rw [List.cons_append, splitOnChar_cons_eq sep c ih'.symm, if_neg hc]
          · simp only [List.dropLast_cons₂, List.getLastD_cons, List.cons_append] at ih' ⊢
            injection ih' with e1 e2
            subst e1
            subst e2
            rfl

theorem getLastD_append_right {l1 l2 : List (List Char)} (h : l2 ≠ []) :
    (l1 ++ l2).getLastD [] = l2.getLastD [] := by
  rcases l2 with _ | ⟨a, t⟩
  · exact absurd rfl h
  · simp [List.getLastD_eq_getLast?, List.getLast?_append_of_ne_nil]
    rcases hx : (a :: t).getLast? with _ | b
    · simp at hx
    · simp

/-- C3: splitting the same text across two datagram chunks at any boundary
forwards the same complete sentences as delivering it in one chunk: the
forwarded lines of chunk a followed by those of chunk b (fed the carry-over
buffer left by a) are exactly the filtered complete lines of a ++ b, and
the final carry-over buffer is the unterminated tail of a ++ b.  In
particular a sentence split across the two chunks is forwarded once, whole. -/
theorem claim_C3 (a b : List Char) :
    (processData [] a).1 ++ (processData (processData [] a).2 b).1 =
        forwardLines ((splitOnChar '\n' (a ++ b)).dropLast) ∧
      (processData (processData [] a).2 b).2 =
        (splitOnChar '\n' (a ++ b)).getLastD [] := by
  have hsplit := splitOnChar_append '\n' a b
  have hne := splitOnChar_ne_nil '\n' ((splitOnChar '\n' a).getLastD [] ++ b)
  constructor
  · simp only [processData, List.nil_append]
    rw [hsplit, List.dropLast_append_of_ne_nil _ hne]
    simp [forwardLines, List.filterMap_append]
  · simp only [processData, List.nil_append]
    rw [hsplit]
    have : ((splitOnChar '\n' a).dropLast ++
        splitOnChar '\n' ((splitOnChar '\n' a).getLastD [] ++ b)).getLastD [] =
        (splitOnChar '\n' ((splitOnChar '\n' a).getLastD [] ++ b)).getLastD [] :=
      getLastD_append_right hne
    rw [this]

theorem callbackLoop_eq_map (pi : PosInfo μ) :
    ∀ cbs : List (Observer μ), callbackLoop pi cbs = cbs.map (fun cb => cb pi)
  | [] => rfl
  | cb :: rest => by
    simp [callbackLoop, callbackLoop_eq_map pi rest]

/-- C7: when a position-update is dispatched, the parser state is exactly
the history/last-position update and does not depend on the observers or
on whether any of them raises; every registered observer is invoked, in
registration order, each receiving the same position_info, regardless of
exceptions raised by earlier observers (each exception is caught and
recorded); and a newly registered observer is invoked after all previously
registered ones. -/
theorem claim_C7 (cm : CalcMove μ) (cbs : List (Observer μ))
    (st : NavState μ) (pi : PosInfo μ) :
    (processNewPositionFull cm cbs st pi).1 = processNewPosition cm st pi ∧
      (processNewPositionFull cm cbs st pi).2 =
        cbs.map (fun cb => cb (mkPosInfo cm st pi)) ∧
      ∀ cb : Observer μ,
        callbackLoop (mkPosInfo cm st pi) (addPositionCallback cbs cb) =
          callbackLoop (mkPosInfo cm st pi) cbs ++ [cb (mkPosInfo cm st pi)] := by
  refine ⟨rfl, callbackLoop_eq_map _ cbs, fun cb => ?_⟩
  simp [addPositionCallback, callbackLoop_eq_map]

/-- History effect of _process_new_position: the length bound 100 is
preserved; at capacity the oldest sample is evicted and the new one goes
last; below capacity the new sample is appended. -/
theorem processNewPosition_hist (cm : CalcMove μ) (st : NavState μ) (pi : PosInfo μ)
    (hle : st.position_history.length ≤ 100) :
    (processNewPosition cm st pi).position_history.length ≤ 100 ∧
      (st.position_history.length = 100 →
        (processNewPosition cm st pi).position_history =
          st.position_history.tail ++ [mkPosInfo cm st pi]) ∧
      (st.position_history.length < 100 →
        (processNewPosition cm st pi).position_history =
          st.position_history ++ [mkPosInfo cm st pi]) := by
  simp only [processNewPosition]
  by_cases hfull : st.position_history.length + 1 > 100
  · rw [if_pos (by simp only [List.length_append, List.length_cons, List.length_nil]; omega)]
    have hne : st.position_history ≠ [] := by
      intro h0
      rw [h0] at hfull
      simp at hfull
    rw [List.tail_append_singleton_of_ne_nil hne]
    refine ⟨?_, fun _ => rfl, fun hlt => ?_⟩
    · have := List.length_tail st.position_history
      simp only [List.length_append, List.length_cons, List.length_nil, this]
      omega
    · omega
  · rw [if_neg (by simp only [List.length_append, List.length_cons, List.length_nil]; omega)]
    refine ⟨?_, fun h100 => ?_, fun _ => rfl⟩
    · simp only [List.length_append, List.length_cons, List.length_nil]
      omega
    · omega

/-! Inversion lemmas: a successful handler call returns either the empty
record with the state untouched, or the handler's record together with the
corresponding state update. -/

theorem parse_gga_invert {cm : CalcMove μ} {now : List Char} {st st' : NavState μ}
    {parts : List (List Char)} {r : Record}
    (h : parse_gga cm now st parts = .ok (st', r)) :
    (∃ g, r = .gga g ∧ st' = ggaUpdate cm now st g) ∨ (r = .empty ∧ st' = st) := by
  unfold parse_gga at h
  split at h
  · simp only [Except.ok.injEq, Prod.mk.injEq] at h
    exact Or.inr ⟨h.2.symm, h.1.symm⟩
  · split at h
    · simp only [Except.ok.injEq, Prod.mk.injEq] at h
      exact Or.inl ⟨_, h.2.symm, h.1.symm⟩
    · simp at h

theorem parse_rmc_invert {cm : CalcMove μ} {now : List Char} {st st' : NavState μ}
    {parts : List (List Char)} {r : Record}
    (h : parse_rmc cm now st parts = .ok (st', r)) :
    (∃ g, r = .rmc g ∧ st' = rmcUpdate cm now st g) ∨ (r = .empty ∧ st' = st) := by
  unfold parse_rmc at h
  split at h
  · simp only [Except.ok.injEq, Prod.mk.injEq] at h
    exact Or.inr ⟨h.2.symm, h.1.symm⟩
  · split at h
    · simp only [Except.ok.injEq, Prod.mk.injEq] at h
      exact Or.inl ⟨_, h.2.symm, h.1.symm⟩
    · simp at h

theorem parse_gsa_invert {st st' : NavState μ} {parts : List (List Char)} {r : Record}
    (h : parse_gsa st parts = .ok (st', r)) : st' = st := by
  unfold parse_gsa at h
  split at h
  · simp only [Except.ok.injEq, Prod.mk.injEq] at h
    exact h.1.symm
  · split at h
    · simp only [Except.ok.injEq, Prod.mk.injEq] at h
      exact h.1.symm
    · simp at h

theorem parse_gsv_invert {st st' : NavState μ} {parts : List (List Char)} {r : Record}
    (h : parse_gsv st parts = .ok (st', r)) :
    (∃ g : GSVRec, r = .gsv g ∧
        st' = gsvUpdate st (get_constellation (fld parts 0)) g.satellites) ∨
      (r = .empty ∧ st' = st) := by
  unfold parse_gsv at h
  split at h
  · simp only [Except.ok.injEq, Prod.mk.injEq] at h
    exact Or.inr ⟨h.2.symm, h.1.symm⟩
  · split at h
    · simp only [Except.ok.injEq, Prod.mk.injEq] at h
      exact Or.inl ⟨_, h.2.symm, h.1.symm⟩
    · simp at h

theorem parse_vtg_invert {st st' : NavState μ} {parts : List (List Char)} {r : Record}
    (h : parse_vtg st parts = .ok (st', r)) :
    (∃ g, r = .vtg g ∧ st' = vtgUpdate st g) ∨ (r = .empty ∧ st' = st) := by
  unfold parse_vtg at h
  split at h
  · simp only [Except.ok.injEq, Prod.mk.injEq] at h
    exact Or.inr ⟨h.2.symm, h.1.symm⟩
  · split at h
    · simp only [Except.ok.injEq, Prod.mk.injEq] at h
      exact Or.inl ⟨_, h.2.symm, h.1.symm⟩
    · simp at h

theorem parse_gns_invert {st st' : NavState μ} {parts : List (List Char)} {r : Record}
    (h : parse_gns st parts = .ok (st', r)) : st' = st := by
  unfold parse_gns at h
  split at h
  · simp only [Except.ok.injEq, Prod.mk.injEq] at h
    exact h.1.symm
  · split at h
    · simp only [Except.ok.injEq, Prod.mk.injEq] at h
      exact h.1.symm
    · simp at h

theorem parse_pqxfi_invert {st st' : NavState μ} {parts : List (List Char)} {r : Record}
    (h : parse_pqxfi st parts = .ok (st', r)) : st' = st := by
  unfold parse_pqxfi at h
  split at h
  · simp only [Except.ok.injEq, Prod.mk.injEq] at h
    exact h.1.symm
  · split at h
    · simp only [Except.ok.injEq, Prod.mk.injEq] at h
      exact h.1.symm
    · simp at h

theorem ggaUpdate_hist (cm : CalcMove μ) (now : List Char) (st : NavState μ)
    (g : GGARec) (hle : st.position_history.length ≤ 100) :
    (ggaUpdate cm now st g).position_history.length ≤ 100 := by
  have hp := (processNewPosition_hist cm
    { st with position := some (g.latitude.getD 0, g.longitude.getD 0, g.altitude) }
    (posInfoGGA now g) hle).1
  simp only [ggaUpdate]
  split <;> split <;> split <;> simp_all

theorem rmcUpdate_hist (cm : CalcMove μ) (now : List Char) (st : NavState μ)
    (g : RMCRec) (hle : st.position_history.length ≤ 100) :
    (rmcUpdate cm now st g).position_history.length ≤ 100 := by
  have hp := (processNewPosition_hist cm
    { st with position := some (g.latitude.getD 0, g.longitude.getD 0, none) }
    (posInfoRMC now g) hle).1
  simp only [rmcUpdate]
  split <;> split <;> split <;> simp_all

theorem vtgUpdate_hist (st : NavState μ) (g : VTGRec) :
    (vtgUpdate st g).position_history = st.position_history := by
  simp only [vtgUpdate]
  split <;> rfl

theorem gsvUpdate_hist (st : NavState μ) (c : List Char) (sats : List Sat) :
    (gsvUpdate st c sats).position_history = st.position_history := rfl

/-- C8: the bounded-history invariant.  First conjunct: the history-append
step of _process_new_position keeps the length at most 100, evicting the
oldest sample and appending the new one last when the history is full, and
just appending when below capacity.  Second conjunct: every successful
parse_sentence call preserves the bound. -/
theorem claim_C8 (cm : CalcMove μ) :
    (∀ (st : NavState μ) (pi : PosInfo μ), st.position_history.length ≤ 100 →
        (processNewPosition cm st pi).position_history.length ≤ 100 ∧
          (st.position_history.length = 100 →
            (processNewPosition cm st pi).position_history =
              st.position_history.tail ++ [mkPosInfo cm st pi]) ∧
          (st.position_history.length < 100 →
            (processNewPosition cm st pi).position_history =
              st.position_history ++ [mkPosInfo cm st pi])) ∧
      ∀ (now : List Char) (st : NavState μ) (line : List Char)
        (st' : NavState μ) (r : Record), st.position_history.length ≤ 100 →
        parse_sentence cm now st line = .ok (st', r) →
        st'.position_history.length ≤ 100 := by
  refine ⟨fun st pi => processNewPosition_hist cm st pi, ?_⟩
  intro now st line st' r hle h
  unfold parse_sentence at h
  split at h
  case h_2 =>
    simp only [Except.ok.injEq, Prod.mk.injEq] at h
    rw [← h.1]
    exact hle
  case h_1 _ rest =>
    dsimp only at h
    split at h
    case isTrue =>
      simp only [Except.ok.injEq, Prod.mk.injEq] at h
      rw [← h.1]
      exact hle
    case isFalse => ?_
    split at h
    · rcases parse_gga_invert h with ⟨g, _, hst⟩ | ⟨_, hst⟩
      · rw [hst]
        exact ggaUpdate_hist cm now st g hle
      · rw [hst]
        exact hle
    · split at h
      · rcases parse_rmc_invert h with ⟨g, _, hst⟩ | ⟨_, hst⟩
        · rw [hst]
          exact rmcUpdate_hist cm now st g hle
        · rw [hst]
          exact hle
      · split at h
        · rw [parse_gsa_invert h]
          exact hle
        · split at h
          · rcases parse_gsv_invert h with ⟨g, _, hst⟩ | ⟨_, hst⟩
            · rw [hst, gsvUpdate_hist]
              exact hle
            · rw [hst]
              exact hle
          · split at h
            · rcases parse_vtg_invert h with ⟨g, _, hst⟩ | ⟨_, hst⟩
              · rw [hst, vtgUpdate_hist]
                exact hle
              · rw [hst]
                exact hle
            · split at h
              · rw [parse_gns_invert h]
                exact hle
              · split at h
                · rw [parse_pqxfi_invert h]
                  exact hle
                · simp only [Except.ok.injEq, Prod.mk.injEq] at h
                  rw [← h.1]
                  exact hle

/-- C8 witness: the length hypothesis is discharged at the fresh state and
the bound holds concretely after one history append. -/
theorem claim_C8_witness :
    (initState (μ := Unit)).position_history.length ≤ 100 ∧
      (processNewPosition (fun _ _ => none) (initState (μ := Unit))
          ⟨[], none, none, none, none, none, none, none, [], none⟩).position_history.length ≤
        100 :=
  ⟨by decide,
    ((claim_C8 (fun _ _ => none)).1 (initState (μ := Unit))
        ⟨[], none, none, none, none, none, none, none, [], none⟩ (by decide)).1⟩

/-- C4: parse_sentence on the example sentence returns a GGA record with
time "18:37:30.000", latitude within 1e-6 degrees of 47.558472, longitude
within 1e-6 degrees of -52.752907, fix quality "GPS fix (SPS)" and
altitude 62.9. -/
theorem claim_C4 :
    ∃ (st : NavState Unit) (g : GGARec),
      parse_sentence (fun _ _ => none) [] (initState (μ := Unit))
          (strL "$GPGGA,183730.0,4733.508324,N,05245.174442,W,1,03,500.0,62.9,M,12.0,M,,*75") =
        .ok (st, .gga g) ∧
      g.time = some (strL "18:37:30.000") ∧
      (∃ la : ℚ, g.latitude = some la ∧ |la - 47558472 / 1000000| ≤ 1 / 1000000) ∧
      (∃ lo : ℚ, g.longitude = some lo ∧ |lo - -(52752907 / 1000000)| ≤ 1 / 1000000) ∧
      g.fix_quality = some (strL "GPS fix (SPS)") ∧
      g.altitude = some (629 / 10) := by
  refine ⟨_, _, rfl, ?_, ⟨_, rfl, ?_⟩, ⟨_, rfl, ?_⟩, ?_, ?_⟩ <;> decide

theorem stripChecksumLast_length :
    ∀ l : List (List Char), (stripChecksumLast l).length = l.length
  | [] => rfl
  | [_] => rfl
  | _ :: y :: xs => by
    simp [stripChecksumLast, stripChecksumLast_length (y :: xs)]

/-- C6: a line whose sentence type has a registered handler but whose
comma-separated field count is below that handler's minimum produces the
empty record, and the state — position, time, satellites, fix info,
velocity, history — is returned entirely unchanged. -/
theorem claim_C6 (cm : CalcMove μ) (now : List Char) (st : NavState μ)
    (rest : List Char) (m : Nat)
    (hmin : minFieldsOf ((splitOnChar ',' rest).headD []) = some m)
    (hlen : (splitOnChar ',' rest).length < m) :
    parse_sentence cm now st ('$' :: rest) = .ok (st, Record.empty) := by
  have hsl : (stripChecksumLast (splitOnChar ',' rest)).length =
      (splitOnChar ',' rest).length := stripChecksumLast_length _
  unfold parse_sentence
  dsimp only
  rw [if_neg (by simp)]
  unfold minFieldsOf at hmin
  split_ifs at hmin with h1 h2 h3 h4 h5 h6 h7
  · injection hmin with hm
    subst hm
    rw [if_pos h1]
    unfold parse_gga
    rw [if_pos (by rw [hsl]; exact hlen)]
  · injection hmin with hm
    subst hm
    rw [if_neg h1, if_pos h2]
    unfold parse_rmc
    rw [if_pos (by rw [hsl]; exact hlen)]
  · injection hmin with hm
    subst hm
    rw [if_neg h1, if_neg h2, if_pos h3]
    unfold parse_gsa
    rw [if_pos (by rw [hsl]; exact hlen)]
  · injection hmin with hm
    subst hm
    rw [if_neg h1, if_neg h2, if_neg h3, if_pos h4]
    unfold parse_gsv
    rw [if_pos (by rw [hsl]; exact hlen)]
  · injection hmin with hm
    subst hm
    rw [if_neg h1, if_neg h2, if_neg h3, if_neg h4, if_pos h5]
    unfold parse_vtg
    rw [if_pos (by rw [hsl]; exact hlen)]
  · injection hmin with hm
    subst hm
    rw [if_neg h1, if_neg h2, if_neg h3, if_neg h4, if_neg h5, if_pos h6]
    unfold parse_gns
    rw [if_pos (by rw [hsl]; exact hlen)]
  · injection hmin with hm
    subst hm
    rw [if_neg h1, if_neg h2, if_neg h3, if_neg h4, if_neg h5, if_neg h6, if_pos h7]
    unfold parse_pqxfi
    rw [if_pos (by rw [hsl]; exact hlen)]

/-- C6 witness: a GGA line with three fields is below the minimum of 15,
yields the empty record and leaves the fresh state untouched. -/
theorem claim_C6_witness :
    minFieldsOf ((splitOnChar ',' (strL "GPGGA,1,2")).headD []) = some 15 ∧
      (splitOnChar ',' (strL "GPGGA,1,2")).length < 15 ∧
      parse_sentence (fun _ _ => none) [] (initState (μ := Unit))
          ('$' :: strL "GPGGA,1,2") =
        .ok (initState (μ := Unit), Record.empty) :=
  ⟨by decide, by decide,
    claim_C6 (fun _ _ => none) [] (initState (μ := Unit)) (strL "GPGGA,1,2") 15
      (by decide) (by decide)⟩

theorem ggaUpdate_zero (cm : CalcMove μ) (now : List Char) (st : NavState μ)
    (g : GGARec) (h0 : g.latitude = some 0 ∨ g.longitude = some 0) :
    (ggaUpdate cm now st g).position = st.position ∧
      (ggaUpdate cm now st g).position_history = st.position_history ∧
      (ggaUpdate cm now st g).last_position = st.last_position := by
  have hfalse : (truthyQ g.latitude && truthyQ g.longitude) = false := by
    rcases h0 with h | h <;> simp [h, truthyQ]
  simp only [ggaUpdate, hfalse, Bool.false_eq_true, if_false]
  split <;> split <;> simp

theorem rmcUpdate_zero (cm : CalcMove μ) (now : List Char) (st : NavState μ)
    (g : RMCRec) (h0 : g.latitude = some 0 ∨ g.longitude = some 0) :
    (rmcUpdate cm now st g).position = st.position ∧
      (rmcUpdate cm now st g).position_history = st.position_history ∧
      (rmcUpdate cm now st g).last_position = st.last_position := by
  have hfalse : (truthyQ g.latitude && truthyQ g.longitude) = false := by
    rcases h0 with h | h <;> simp [h, truthyQ]
  simp only [rmcUpdate, hfalse, Bool.false_eq_true, if_false]
  split <;> split <;> simp

/-- C10: a GGA or RMC sentence whose decoded latitude or longitude is
exactly 0.0 does not replace the stored position and emits no
position-update event (no history append, no last-position change), even
though the coordinate fields decoded successfully: position replacement is
gated on numeric truthiness, which conflates 0.0 with absence. -/
theorem claim_C10 :
    (∀ (cm : CalcMove μ) (now : List Char) (st : NavState μ)
        (parts : List (List Char)) (st' : NavState μ) (g : GGARec),
        parse_gga cm now st parts = .ok (st', Record.gga g) →
        g.latitude = some 0 ∨ g.longitude = some 0 →
        st'.position = st.position ∧ st'.position_history = st.position_history ∧
          st'.last_position = st.last_position) ∧
      ∀ (cm : CalcMove μ) (now : List Char) (st : NavState μ)
        (parts : List (List Char)) (st' : NavState μ) (g : RMCRec),
        parse_rmc cm now st parts = .ok (st', Record.rmc g) →
        g.latitude = some 0 ∨ g.longitude = some 0 →
        st'.position = st.position ∧ st'.position_history = st.position_history ∧
          st'.last_position = st.last_position := by
  constructor
  · intro cm now st parts st' g h h0
    rcases parse_gga_invert h with ⟨g', hg, hst⟩ | ⟨hg, _⟩
    · injection hg with hgg
      subst hgg
      rw [hst]
      exact ggaUpdate_zero cm now st _ h0
    · exact absurd hg (by simp)
  · intro cm now st parts st' g h h0
    rcases parse_rmc_invert h with ⟨g', hg, hst⟩ | ⟨hg, _⟩
    · injection hg with hgg
      subst hgg
      rw [hst]
      exact rmcUpdate_zero cm now st _ h0
    · exact absurd hg (by simp)

/-- C10 witness: a GGA sentence with latitude field 0000.000000 decodes
both coordinates but leaves position, history and last-position of a fresh
state untouched. -/
theorem claim_C10_witness :
    ∃ (st' : NavState Unit) (g : GGARec),
      parse_gga (fun _ _ => none) [] (initState (μ := Unit))
          (stripChecksumLast (splitOnChar ','
            (strL "GPGGA,183730.0,0000.000000,N,05245.174442,W,1,03,500.0,62.9,M,12.0,M,,*75"))) =
        .ok (st', Record.gga g) ∧
      (g.latitude = some 0 ∨ g.longitude = some 0) ∧
      g.longitude.isSome ∧
      st'.position = (initState (μ := Unit)).position := by
  refine ⟨_, _, rfl, Or.inl (by decide), by decide, ?_⟩
  exact (claim_C10.1 (fun _ _ => none) [] (initState (μ := Unit))
    (stripChecksumLast (splitOnChar ','
      (strL "GPGGA,183730.0,0000.000000,N,05245.174442,W,1,03,500.0,62.9,M,12.0,M,,*75")))
    _ _ rfl (Or.inl (by decide))).1

theorem ggaUpdate_pos (cm : CalcMove μ) (now : List Char) (st : NavState μ)
    (g : GGARec) (la lo : ℚ) (hla : g.latitude = some la) (ha : la ≠ 0)
    (hlo : g.longitude = some lo) (hb : lo ≠ 0) :
    (ggaUpdate cm now st g).position = some (la, lo, g.altitude) := by
  have ht : (truthyQ g.latitude && truthyQ g.longitude) = true := by
    simp [truthyQ, hla, hlo, ha, hb]
  simp only [ggaUpdate, ht, if_true]
  split <;> split <;> simp [processNewPosition, hla, hlo]

theorem rmcUpdate_pos (cm : CalcMove μ) (now : List Char) (st : NavState μ)
    (g : RMCRec) (la lo : ℚ) (hla : g.latitude = some la) (ha : la ≠ 0)
    (hlo : g.longitude = some lo) (hb : lo ≠ 0) :
    (rmcUpdate cm now st g).position = some (la, lo, none) := by
  have ht : (truthyQ g.latitude && truthyQ g.longitude) = true := by
    simp [truthyQ, hla, hlo, ha, hb]
  simp only [rmcUpdate, ht, if_true]
  split <;> split <;> simp [processNewPosition, hla, hlo]

/-- C9 counterexample: an RMC sentence whose latitude field decodes to
exactly 0 has both coordinates present (both decode to values), yet the
stored position — including its previously known altitude — is left
unchanged, so "an RMC sentence with both coordinates present replaces the
stored position" is false as stated. -/
theorem claim_C9_counterexample :
    ∃ (st' : NavState Unit) (g : RMCRec),
      parse_sentence (fun _ _ => none) []
          { initState (μ := Unit) with position := some (1, 2, some 3) }
          (strL "$GPRMC,183730.0,A,0000.000000,N,05245.174442,W,0.5,54.7,190925,,,A*47") =
        .ok (st', Record.rmc g) ∧
      g.latitude = some 0 ∧
      g.longitude.isSome ∧
      st'.position = some (1, 2, some 3) := by
  refine ⟨_, _, rfl, by decide, by decide, by decide⟩

/-- C9 as amended: an RMC sentence both of whose coordinates decode to
nonzero values atomically replaces the stored position with
(latitude, longitude, altitude = not present), clearing any previously
known altitude, whereas a GGA sentence under the same condition replaces
the stored position with the altitude from its own altitude field. -/
theorem claim_C9 :
    (∀ (cm : CalcMove μ) (now : List Char) (st : NavState μ)
        (parts : List (List Char)) (st' : NavState μ) (g : RMCRec) (la lo : ℚ),
        parse_rmc cm now st parts = .ok (st', Record.rmc g) →
        g.latitude = some la → la ≠ 0 → g.longitude = some lo → lo ≠ 0 →
        st'.position = some (la, lo, none)) ∧
      ∀ (cm : CalcMove μ) (now : List Char) (st : NavState μ)
        (parts : List (List Char)) (st' : NavState μ) (g : GGARec) (la lo : ℚ),
        parse_gga cm now st parts = .ok (st', Record.gga g) →
        g.latitude = some la → la ≠ 0 → g.longitude = some lo → lo ≠ 0 →
        st'.position = some (la, lo, g.altitude) := by
  constructor
  · intro cm now st parts st' g la lo h hla ha hlo hb
    rcases parse_rmc_invert h with ⟨g', hg, hst⟩ | ⟨hg, _⟩
    · injection hg with hgg
      subst hgg
      rw [hst]
      exact rmcUpdate_pos cm now st _ la lo hla ha hlo hb
    · exact absurd hg (by simp)
  · intro cm now st parts st' g la lo h hla ha hlo hb
    rcases parse_gga_invert h with ⟨g', hg, hst⟩ | ⟨hg, _⟩
    · injection hg with hgg
      subst hgg
      rw [hst]
      exact ggaUpdate_pos cm now st _ la lo hla ha hlo hb
    · exact absurd hg (by simp)

/-- C9 witness: a concrete RMC sentence with nonzero coordinates replaces
the stored position, clearing the previously stored altitude. -/
theorem claim_C9_witness :
    ∃ (st' : NavState Unit) (g : RMCRec),
      parse_rmc (fun _ _ => none) []
          { initState (μ := Unit) with position := some (1, 2, some 3) }
          (stripChecksumLast (splitOnChar ','
            (strL "GPRMC,183730.0,A,4733.508324,N,05245.174442,W,0.5,54.7,190925,,,A*47"))) =
        .ok (st', Record.rmc g) ∧
      st'.position = some (713377081 / 15000000, -1582587221 / 30000000, none) := by
  refine ⟨_, _, rfl, ?_⟩
  exact claim_C9.1 (fun _ _ => none) []
    { initState (μ := Unit) with position := some (1, 2, some 3) }
    (stripChecksumLast (splitOnChar ','
      (strL "GPRMC,183730.0,A,4733.508324,N,05245.174442,W,0.5,54.7,190925,,,A*47")))
    _ _ (713377081 / 15000000) (-1582587221 / 30000000) rfl (by decide) (by decide)
    (by decide) (by decide)

theorem ggaUpdate_time (cm : CalcMove μ) (now : List Char) (st : NavState μ)
    (g : GGARec) (ht : truthyS g.time = true) :
    (ggaUpdate cm now st g).time_info = g.time := by
  simp only [ggaUpdate, ht, if_true]
  split <;> simp

theorem rmcUpdate_time (cm : CalcMove μ) (now : List Char) (st : NavState μ)
    (g : RMCRec) (ht : truthyS g.time = true) :
    (rmcUpdate cm now st g).time_info = g.time := by
  simp only [rmcUpdate, ht, if_true]
  split <;> simp

/-- C5 counterexample: a GNS sentence with a present, well-formed
time-of-day field is decoded (its record carries the formatted time), yet
the stored state — in particular the stored time-of-day — is returned
completely unchanged, refuting the claim that every time-carrying sentence
kind (GGA, RMC, GNS, PQXFI) updates the stored time-of-day. -/
theorem claim_C5_counterexample :
    ∃ g : GNSRec,
      parse_sentence (fun _ _ => none) [] (initState (μ := Unit))
          (strL "$GNGNS,183730.0,4733.508324,N,05245.174442,W,AA,12,1.0,62.9,12.0,,*11") =
        .ok (initState (μ := Unit), Record.gns g) ∧
      g.time = some (strL "18:37:30.000") ∧
      (initState (μ := Unit)).time_info = none := by
  exact ⟨_, rfl, by decide, rfl⟩

/-- C5 as amended: GGA and RMC sentences with a present, well-formed
(truthy) time field update the stored time-of-day; GNS and PQXFI sentences
decode their time field into the returned record but leave the stored
state — including time-of-day — entirely unchanged. -/
theorem claim_C5 :
    (∀ (cm : CalcMove μ) (now : List Char) (st : NavState μ)
        (parts : List (List Char)) (st' : NavState μ) (g : GGARec),
        parse_gga cm now st parts = .ok (st', Record.gga g) →
        truthyS g.time = true → st'.time_info = g.time) ∧
      (∀ (cm : CalcMove μ) (now : List Char) (st : NavState μ)
        (parts : List (List Char)) (st' : NavState μ) (g : RMCRec),
        parse_rmc cm now st parts = .ok (st', Record.rmc g) →
        truthyS g.time = true → st'.time_info = g.time) ∧
      (∀ (st st' : NavState μ) (parts : List (List Char)) (r : Record),
        parse_gns st parts = .ok (st', r) → st' = st) ∧
      ∀ (st st' : NavState μ) (parts : List (List Char)) (r : Record),
        parse_pqxfi st parts = .ok (st', r) → st' = st := by
  refine ⟨?_, ?_, fun st st' parts r h => parse_gns_invert h,
    fun st st' parts r h => parse_pqxfi_invert h⟩
  · intro cm now st parts st' g h ht
    rcases parse_gga_invert h with ⟨g', hg, hst⟩ | ⟨hg, _⟩
    · injection hg with hgg
      subst hgg
      rw [hst]
      exact ggaUpdate_time cm now st _ ht
    · exact absurd hg (by simp)
  · intro cm now st parts st' g h ht
    rcases parse_rmc_invert h with ⟨g', hg, hst⟩ | ⟨hg, _⟩
    · injection hg with hgg
      subst hgg
      rw [hst]
      exact rmcUpdate_time cm now st _ ht
    · exact absurd hg (by simp)

/-- C5 witness: parsing the example GGA sentence into a fresh state stores
its decoded time of day. -/
theorem claim_C5_witness :
    ∃ (st' : NavState Unit) (g : GGARec),
      parse_gga (fun _ _ => none) [] (initState (μ := Unit))
          (stripChecksumLast (splitOnChar ','
            (strL "GPGGA,183730.0,4733.508324,N,05245.174442,W,1,03,500.0,62.9,M,12.0,M,,*75"))) =
        .ok (st', Record.gga g) ∧
      st'.time_info = g.time := by
  refine ⟨_, _, rfl, ?_⟩
  exact claim_C5.1 (fun _ _ => none) [] (initState (μ := Unit))
    (stripChecksumLast (splitOnChar ','
      (strL "GPGGA,183730.0,4733.508324,N,05245.174442,W,1,03,500.0,62.9,M,12.0,M,,*75")))
    _ _ rfl (by decide)

theorem mem_upsertSat {y : Sat} :
    ∀ {l : List Sat} {s : Sat}, y ∈ upsertSat l s → y ∈ l ∨ y = s
  | [], s => by simp [upsertSat]
  | x :: xs, s => by
    simp only [upsertSat]
    split
    · intro hy
      rcases List.mem_cons.mp hy with h | h
      · exact Or.inr h
      · exact Or.inl (List.mem_cons_of_mem x h)
    · intro hy
      rcases List.mem_cons.mp hy with h | h
      · exact Or.inl (h ▸ List.mem_cons_self x xs)
      · rcases mem_upsertSat h with h' | h'
        · exact Or.inl (List.mem_cons_of_mem x h')
        · exact Or.inr h'

/-- C2 counterexample: two GSV sentences for the same constellation and
the same PRN, where the first carries elevation/azimuth/SNR and the second
carries none of them.  After both are processed, the single stored entry
for PRN 5 holds the later sentence's absent values — the present values of
the earlier sentence are erased rather than kept, refuting "the non-absent
value is kept when only one sentence carries the field". -/
theorem claim_C2_counterexample :
    ∃ (st1 st2 : NavState Unit) (g1 g2 : GSVRec),
      parse_sentence (fun _ _ => none) [] (initState (μ := Unit))
          (strL "$GPGSV,1,1,01,05,45,120,30*7A") = .ok (st1, Record.gsv g1) ∧
      parse_sentence (fun _ _ => none) [] st1
          (strL "$GPGSV,1,1,01,05,,,*7A") = .ok (st2, Record.gsv g2) ∧
      g1.satellites = [⟨5, some 45, some 120, some 30⟩] ∧
      g2.satellites = [⟨5, none, none, none⟩] ∧
      assocGet st2.satellites (strL "GPS") = some [⟨5, none, none, none⟩] := by
  refine ⟨_, _, _, _, rfl, rfl, by decide, by decide, by decide⟩

/-- C2 as amended: merging a decoded satellite into a constellation bucket
keeps exactly one entry per PRN, the entry for the merged PRN becomes the
new satellite wholesale — each of elevation, azimuth and SNR takes the
later sentence's value unconditionally, an absent later value overwriting
a present earlier one — and entries for other PRNs are unaffected. -/
theorem claim_C2 (b : List Sat) (s : Sat) (hu : prnUnique b) :
    prnUnique (upsertSat b s) ∧
      findPrn (upsertSat b s) s.prn = some s ∧
      ∀ p : Int, p ≠ s.prn → findPrn (upsertSat b s) p = findPrn b p := by
  induction b with
  | nil =>
    refine ⟨by simp [upsertSat, prnUnique], by simp [upsertSat, findPrn], ?_⟩
    intro p hp
    have hne : ¬(s.prn = p) := fun h => hp h.symm
    simp [upsertSat, findPrn, hne]
  | cons x xs ih =>
    have hu' : prnUnique xs := (List.pairwise_cons.mp hu).2
    have hx : ∀ y ∈ xs, x.prn ≠ y.prn := (List.pairwise_cons.mp hu).1
    obtain ⟨ih1, ih2, ih3⟩ := ih hu'
    by_cases hxs : x.prn = s.prn
    · refine ⟨?_, ?_, ?_⟩
      · simp only [upsertSat, if_pos hxs]
        exact List.pairwise_cons.mpr
          ⟨fun y hy => fun he => hx y hy (hxs.trans he), hu'⟩
      · simp [upsertSat, if_pos hxs, findPrn]
      · intro p hp
        simp only [upsertSat, if_pos hxs, findPrn]
        rw [if_neg (fun h => hp h.symm), if_neg (fun h => hp ((hxs.symm.trans h).symm))]
    · refine ⟨?_, ?_, ?_⟩
      · simp only [upsertSat, if_neg hxs]
        refine List.pairwise_cons.mpr ⟨?_, ih1⟩
        intro y hy
        rcases mem_upsertSat hy with h | h
        · exact hx y h
        · rw [h]
          exact hxs
      · simp only [upsertSat, if_neg hxs, findPrn]
        exact ih2
      · intro p hp
        simp only [upsertSat, if_neg hxs, findPrn]
        by_cases hxp : x.prn = p
        · rw [if_pos hxp, if_pos hxp]
        · rw [if_neg hxp, if_neg hxp]
          exact ih3 p hp

/-- C2 witness: merging an all-absent update for PRN 5 into a bucket that
holds a fully populated PRN 5 entry keeps one entry, replaces it with the
absent-valued satellite, and leaves other PRNs alone. -/
theorem claim_C2_witness :
    prnUnique [⟨5, some 45, some 120, some 30⟩] ∧
      prnUnique (upsertSat [⟨5, some 45, some 120, some 30⟩] ⟨5, none, none, none⟩) ∧
      findPrn (upsertSat [⟨5, some 45, some 120, some 30⟩] ⟨5, none, none, none⟩) 5 =
        some ⟨5, none, none, none⟩ ∧
      findPrn (upsertSat [⟨5, some 45, some 120, some 30⟩] ⟨5, none, none, none⟩) 7 =
        findPrn [⟨5, some 45, some 120, some 30⟩] 7 :=
  ⟨by decide,
    (claim_C2 [⟨5, some 45, some 120, some 30⟩] ⟨5, none, none, none⟩ (by decide)).1,
    (claim_C2 [⟨5, some 45, some 120, some 30⟩] ⟨5, none, none, none⟩ (by decide)).2.1,
    (claim_C2 [⟨5, some 45, some 120, some 30⟩] ⟨5, none, none, none⟩ (by decide)).2.2 7
      (by decide)⟩

/-- C1 counterexample: a present-but-malformed satellite-count field ("ab")
in an otherwise valid GGA sentence of full length does not resolve to "not
present" with the rest of the record intact — the bare int() conversion
raises, the exception escapes parse_sentence, and no record is returned at
all. -/
theorem claim_C1_counterexample :
    parse_sentence (fun _ _ => (none : Option Unit)) [] (initState (μ := Unit))
        (strL "$GPGGA,183730.0,4733.508324,N,05245.174442,W,1,ab,500.0,62.9,M,12.0,M,,*75") =
      .error () := rfl

/-- C1 as amended: fields decoded through parse_time / parse_coordinate /
parse_date catch their own conversion errors, so a malformed coordinate
field resolves to "not present" while every sibling field still decodes
and the GGA record is still returned (first conjunct, for an arbitrary
malformed latitude field; second conjunct end-to-end through
parse_sentence); but fields converted with bare int()/float() — satellite
count, HDOP, altitude, geoid height, and RMC speed/course/variation —
raise on malformed non-empty input and abort the whole sentence (the
counterexample). -/
theorem claim_C1 :
    (∀ (cm : CalcMove μ) (now : List Char) (st : NavState μ) (la : List Char),
        parse_coordinate la (strL "N") = none →
        ∃ (st' : NavState μ) (g : GGARec),
          parse_gga cm now st
              [strL "GPGGA", strL "183730.0", la, strL "N", strL "05245.174442",
                strL "W", strL "1", strL "03", strL "500.0", strL "62.9", strL "M",
                strL "12.0", strL "M", [], []] =
            .ok (st', Record.gga g) ∧
          g.latitude = none ∧
          g.time = parse_time (strL "183730.0") ∧
          g.longitude = parse_coordinate (strL "05245.174442") (strL "W") ∧
          g.fix_quality = some (get_fix_quality (strL "1")) ∧
          g.num_satellites = 3 ∧
          g.hdop = pyFloat? (strL "500.0") ∧
          g.altitude = pyFloat? (strL "62.9")) ∧
      ∃ (st' : NavState Unit) (g : GGARec),
        parse_sentence (fun _ _ => none) [] (initState (μ := Unit))
            (strL "$GPGGA,183730.0,4x33.508324,N,05245.174442,W,1,03,500.0,62.9,M,12.0,M,,*75") =
          .ok (st', Record.gga g) ∧
        g.latitude = none ∧
        g.time = some (strL "18:37:30.000") ∧
        g.altitude = some (629 / 10) := by
  constructor
  · intro cm now st la h
    refine ⟨_, _, rfl, ?_, ?_, ?_, ?_, ?_, ?_, ?_⟩
    · by_cases hla : la = []
      · simp [fld, hla]
      · simp [fld, hla, h]
    · rfl
    · rfl
    · rfl
    · rfl
    · rfl
    · rfl
  · exact ⟨_, _, rfl, by decide, by decide, by decide⟩

/-- C1 witness: the malformed latitude field "4x33.508324" is rejected by
parse_coordinate, and the GGA record is still produced with every sibling
field decoded. -/
theorem claim_C1_witness :
    parse_coordinate (strL "4x33.508324") (strL "N") = none ∧
      ∃ (st' : NavState Unit) (g : GGARec),
        parse_gga (fun _ _ => none) [] (initState (μ := Unit))
            [strL "GPGGA", strL "183730.0", strL "4x33.508324", strL "N",
              strL "05245.174442", strL "W", strL "1", strL "03", strL "500.0",
              strL "62.9", strL "M", strL "12.0", strL "M", [], []] =
          .ok (st', Record.gga g) ∧
        g.latitude = none ∧
        g.time = parse_time (strL "183730.0") ∧
        g.longitude = parse_coordinate (strL "05245.174442") (strL "W") ∧
        g.fix_quality = some (get_fix_quality (strL "1")) ∧
        g.num_satellites = 3 ∧
        g.hdop = pyFloat? (strL "500.0") ∧
        g.altitude = pyFloat? (strL "62.9") :=
  ⟨by decide,
    claim_C1.1 (fun _ _ => none) [] (initState (μ := Unit)) (strL "4x33.508324")
      (by decide)⟩

end NMEA

